import Mathlib

/-!
# The upload-and-poll controller of static/script.js

A shallow embedding of the browser-side controller: the two module variables
(jobKey, resultCache), the part of the page the handlers read and write, the
timers and outstanding requests the browser keeps for it, and one function per
handler of the script.  A handler maps a state to a new state, the list of
things it asked the browser to do, and whether an exception left it uncaught.

JavaScript runs every handler to completion before the next event is taken, so
an await in the interval callback splits it into two handlers: the part up to
the fetch call (intervalTick) and the part that runs once the fetch has settled
(afterFetch).

Not embedded: the file-name display and drag-and-drop wiring (lines 32-87) and
the upload progress listener (lines 121-127, floating-point percentages).
Every element the script looks up by id is taken to exist.
-/

namespace AILiveGate

/-! ## JavaScript values -/

/-- Values that reach the controller out of JSON.parse and response.json():
undefined (an absent property), null, a string, an object literal with its
fields in source order, and any other JSON value (a boolean, a number or an
array) given by what the script can observe of it: whether it is truthy and
what its string conversion yields (none when converting throws). -/
inductive JSVal where
  | undefined
  | null
  | str (s : String)
  | obj (fields : List (String × JSVal))
  | other (isTruthy : Bool) (text : Option String)

namespace JSVal

/-- ToBoolean. -/
def truthy : JSVal → Bool
  | undefined => false
  | null => false
  | str s => s != ""
  | obj _ => true
  | other t _ => t

/-- The operator ||. -/
def or (a b : JSVal) : JSVal := if a.truthy then a else b

/-- Comparison v === lit against a string literal. -/
def strictEqStr (v : JSVal) (lit : String) : Bool :=
  match v with
  | str s => s == lit
  | _ => false

/-- ToString, none standing for a thrown TypeError.  A parsed object has
Object.prototype as its prototype, so it converts to "[object Object]" unless
it carries a toString field of its own: that field is never callable, valueOf
then yields no primitive, and the conversion throws. -/
def toStr : JSVal → Option String
  | undefined => some "undefined"
  | null => some "null"
  | str s => some s
  | obj fields => if fields.any (fun p => p.1 == "toString") then none else some "[object Object]"
  | other _ text => text

/-- Property read v.k for the names the script reads off parsed JSON (status,
data, key, txt, vtt), none standing for the TypeError of reading a property of
undefined or null.  None of these names is defined on a prototype, so only an
object's own fields can supply them; of a repeated field the last one counts. -/
def getProp (v : JSVal) (k : String) : Option JSVal :=
  match v with
  | undefined => none
  | null => none
  | obj fields => some ((fields.reverse.lookup k).getD undefined)
  | _ => some undefined

/-- What assigning v to textContent stores: undefined and null give the empty
string, everything else its string conversion (none when that throws). -/
def textContent (v : JSVal) : Option String :=
  match v with
  | undefined => some ""
  | null => some ""
  | w => w.toStr

end JSVal

/-- The scan behind String.prototype.split with the separator ": ": cur holds
the current piece reversed; at each leftmost occurrence of the separator the
piece is closed and the scan resumes behind the occurrence. -/
def splitGo : List Char → List Char → List (List Char)
  | [], cur => [cur.reverse]
  | [c], cur => [(c :: cur).reverse]
  | c :: d :: rest, cur =>
      if c = ':' ∧ d = ' ' then cur.reverse :: splitGo rest []
      else splitGo (d :: rest) (c :: cur)

/-- The call s.split(': '). -/
def jsSplit (s : String) : List String := (splitGo s.toList []).map String.mk

/-! ## Page and controller state -/

/-- An input element: what the user typed and its placeholder hint. -/
structure InputEl where
  value : String
  placeholder : String

/-- The href of a download link: what the page came with, or an object URL of
a Blob with the given text and type. -/
inductive Href where
  | page (url : String)
  | blob (text : String) (mime : String)

/-- A download link. -/
structure Download where
  href : Href
  download : String
  display : String

/-- What the viewer shows: text, or the engine's rendering of a member that
every object inherits from Object.prototype. -/
inductive Content where
  | text (s : String)
  | builtin (name : String)

/-- The module variable resultCache. -/
structure ResultCache where
  txt : JSVal
  vtt : JSVal

/-- A value of a multipart form field. -/
inductive FormValue where
  | file (name : String)
  | text (v : String)

/-- Module variables, page, and the browser bookkeeping for this page. -/
structure State where
  jobKey : JSVal
  resultCache : ResultCache
  file : Option String
  model : String
  threshold : InputEl
  min_duration_off : InputEl
  min_speakers : InputEl
  max_speakers : InputEl
  submitDisabled : Bool
  spinnerDisplay : String
  btnText : String
  progressContainerDisplay : String
  resultsContainerDisplay : String
  resultViewDisplay : String
  progressBarWidth : String
  progressText : String
  statusMessage : String
  resultContent : Content
  activeTabs : List Nat
  downloadTxt : Download
  downloadVtt : Download
  intervals : List Nat
  nextInterval : Nat
  pending : List Nat
  xhrPending : Nat

/-- What a handler asks of the browser. -/
inductive Action where
  | preventDefault
  | alert (msg : String)
  | xhrOpen (method : String) (url : String)
  | xhrSend (form : List (String × FormValue))
  | setInterval (id : Nat) (delay : Nat)
  | clearInterval (id : Nat)
  | fetch (url : String)
  | consoleError (label : String)

/-- Result of running a handler. -/
structure Step where
  state : State
  actions : List Action
  threw : Bool

/-- Body of an HTTP response: text that does not parse as JSON, or the value
it parses to. -/
inductive Body where
  | invalid
  | json (v : JSVal)

/-- A response as fetch resolves with it. -/
structure HttpResponse where
  status : Nat
  statusText : String
  body : Body

/-- The property response.ok. -/
def HttpResponse.ok (r : HttpResponse) : Bool := decide (200 ≤ r.status ∧ r.status ≤ 299)

/-- How a fetch settles. -/
inductive FetchOutcome where
  | rejected
  | response (r : HttpResponse)

/-! ## Handlers -/

/-- Function handleError (lines 247-252). -/
def handleError (message : String) (s : State) : Step :=
  { state := { s with submitDisabled := false, spinnerDisplay := "none", btnText := "회의록 생성 시작" }
    actions := [.alert message]
    threw := false }

/-- Function resetUI (lines 235-245). -/
def resetUI (s : State) : State :=
  { s with
    progressContainerDisplay := "none"
    resultsContainerDisplay := "none"
    resultViewDisplay := "none"
    progressBarWidth := "0%"
    progressText := ""
    statusMessage := ""
    resultContent := .text ""
    jobKey := .null
    resultCache := { txt := .null, vtt := .null } }

/-- One of the two try blocks of displayResults (lines 196-203, 206-213):
build the Blob, point the link at it, name the download after the job key;
any exception on the way hides the link. -/
def makeDownload (content jobKey : JSVal) (mime suffix label : String) (link : Download) :
    Download × List Action :=
  match content.toStr with
  | none => ({ link with display := "none" }, [.consoleError label])
  | some text =>
    let link1 := { link with href := .blob text mime }
    match jobKey.toStr with
    | none => ({ link1 with display := "none" }, [.consoleError label])
    | some k => ({ link1 with download := k ++ suffix }, [])

/-- Function displayResults (lines 188-224). -/
def displayResults (data : JSVal) (s : State) : Step :=
  match data.getProp "txt", data.getProp "vtt" with
  | some txt, some vtt =>
    let s1 := { s with resultCache := { txt := txt, vtt := vtt } }
    let t := makeDownload txt s1.jobKey "text/plain;charset=utf-8" "_whisper.txt" "TXT Blob 생성 실패:" s1.downloadTxt
    let v := makeDownload vtt s1.jobKey "text/vtt;charset=utf-8" "_whisper.vtt" "VTT Blob 생성 실패:" s1.downloadVtt
    let s2 := { s1 with downloadTxt := t.1, downloadVtt := v.1 }
    match txt.textContent with
    | none => { state := s2, actions := t.2 ++ v.2, threw := true }
    | some shown =>
      { state := { s2 with
          resultContent := .text shown
          resultViewDisplay := "block"
          submitDisabled := false
          spinnerDisplay := "none"
          btnText := "회의록 생성 시작" }
        actions := t.2 ++ v.2
        threw := false }
  | _, _ => { state := s, actions := [], threw := true }

/-- The timer with this id stops firing. -/
def clearIntervalState (id : Nat) (s : State) : State :=
  { s with intervals := s.intervals.filter (fun j => j != id) }

/-- Function pollForResult (line 152): a timer with a fresh id starts. -/
def pollForResult (s : State) : Step :=
  { state := { s with intervals := s.nextInterval :: s.intervals, nextInterval := s.nextInterval + 1 }
    actions := [.setInterval s.nextInterval 5000]
    threw := false }

/-- The catch block of the interval callback (lines 181-184), entered after
the try block has already asked for the actions pre. -/
def pollCatch (id : Nat) (pre : List Action) (s : State) : Step :=
  let r := handleError "결과 확인 중 네트워크 오류가 발생했습니다." (clearIntervalState id s)
  { r with actions := pre ++ .clearInterval id :: r.actions }

/-- The interval callback up to its await (lines 153-155): the status request
for the current job key goes out. -/
def intervalTick (id : Nat) (s : State) : Step :=
  match s.jobKey.toStr with
  | none => pollCatch id [] s
  | some k =>
    { state := { s with pending := id :: s.pending }
      actions := [.fetch ("/job-result/" ++ k)]
      threw := false }

/-- The interval callback from the point where its fetch has settled
(lines 155-184). -/
def afterFetch (id : Nat) (out : FetchOutcome) (s : State) : Step :=
  match out with
  | .rejected => pollCatch id [] s
  | .response r =>
    if r.ok then
      match r.body with
      | .invalid => pollCatch id [] s
      | .json result =>
        match result.getProp "status", result.getProp "data" with
        | some status, some data =>
          if status.strictEqStr "completed" then
            let s1 := { clearIntervalState id s with statusMessage := "🎉 처리가 완료되었습니다!" }
            let r1 := displayResults data s1
            if r1.threw then pollCatch id (.clearInterval id :: r1.actions) r1.state
            else { r1 with actions := .clearInterval id :: r1.actions }
          else if status.strictEqStr "failed" then
            match data.toStr with
            | none => pollCatch id [.clearInterval id] (clearIntervalState id s)
            | some d =>
              let r1 := handleError ("서버 처리 실패: " ++ d) (clearIntervalState id s)
              { r1 with actions := .clearInterval id :: r1.actions }
          else { state := s, actions := [], threw := false }
        | _, _ => pollCatch id [] s
    else if r.status = 404 then
      let r1 := handleError "작업 ID를 찾을 수 없습니다. 페이지를 새로고침하세요." (clearIntervalState id s)
      { r1 with actions := .clearInterval id :: r1.actions }
    else
      let r1 := handleError ("결과 확인 중 서버 오류 발생: " ++ r.statusText) (clearIntervalState id s)
      { r1 with actions := .clearInterval id :: r1.actions }

/-- The ids of the optional parameters (line 109). -/
def optionalParams : List String := ["threshold", "min_duration_off", "min_speakers", "max_speakers"]

/-- The call document.getElementById(id) for an optional parameter. -/
def State.input (s : State) (id : String) : InputEl :=
  if id = "threshold" then s.threshold
  else if id = "min_duration_off" then s.min_duration_off
  else if id = "min_speakers" then s.min_speakers
  else s.max_speakers

/-- The form value of an optional parameter (lines 111-115): the typed value
unless it is empty, else element 1 of the split placeholder; FormData.append
turns a missing element 1 (undefined) into the string "undefined". -/
def submittedValue (el : InputEl) : String :=
  if el.value ≠ "" then el.value
  else
    match (jsSplit el.placeholder)[1]? with
    | some p => p
    | none => "undefined"

/-- The multipart form of a submission (lines 105-116). -/
def buildForm (f : String) (s : State) : List (String × FormValue) :=
  [("file", .file f), ("model", .text s.model)]
    ++ optionalParams.map (fun id => (id, FormValue.text (submittedValue (s.input id))))

/-- The submit handler from line 100 on, run on the state resetUI left. -/
def startUpload (f : String) (s : State) : Step :=
  { state := { s with
      submitDisabled := true
      spinnerDisplay := "inline-block"
      btnText := "업로드 중..."
      progressContainerDisplay := "block"
      xhrPending := s.xhrPending + 1 }
    actions := [.xhrOpen "POST" "/upload-and-process", .xhrSend (buildForm f s)]
    threw := false }

/-- The submit handler (lines 92-149). -/
def onSubmit (s : State) : Step :=
  match s.file with
  | none => { state := s, actions := [.preventDefault, .alert "파일을 선택해주세요."], threw := false }
  | some f =>
    let r := startUpload f (resetUI s)
    { r with actions := .preventDefault :: r.actions }

/-- The handler xhr.onload (lines 129-142). -/
def xhrOnload (status : Nat) (statusText : String) (body : Body) (s : State) : Step :=
  let s1 := { s with btnText := "처리 대기 중...", progressText := "업로드 완료, 서버 처리 대기 중입니다..." }
  if status = 200 then
    match body with
    | .invalid => { state := s1, actions := [], threw := true }
    | .json response =>
      match response.getProp "key" with
      | none => { state := s1, actions := [], threw := true }
      | some k =>
        pollForResult { s1 with
          jobKey := k
          resultsContainerDisplay := "block"
          statusMessage := "✅ 작업이 대기열에 추가되었습니다. 처리가 시작되면 결과가 표시됩니다. (몇 분 정도 소요될 수 있습니다)" }
  else handleError ("업로드 실패: " ++ statusText) s1

/-- The handler xhr.onerror (lines 144-146). -/
def xhrOnerror (s : State) : Step :=
  handleError "네트워크 오류가 발생했습니다." s

/-- Names every object inherits from Object.prototype in a browser. -/
def objectPrototypeKeys : List String :=
  ["constructor", "__defineGetter__", "__defineSetter__", "hasOwnProperty",
   "__lookupGetter__", "__lookupSetter__", "isPrototypeOf", "propertyIsEnumerable",
   "toString", "valueOf", "__proto__", "toLocaleString"]

/-- Outcome of the lookup resultCache[key]. -/
inductive Looked where
  | own (v : JSVal)
  | builtin (name : String)
  | missing

/-- The lookup resultCache[key]: the object has the two fields txt and vtt of
its own and inherits the members of Object.prototype. -/
def ResultCache.get (c : ResultCache) (key : String) : Looked :=
  if key = "txt" then .own c.txt
  else if key = "vtt" then .own c.vtt
  else if key ∈ objectPrototypeKeys then .builtin key
  else .missing

/-- The text shown when the selected payload is falsy (line 231). -/
def unavailable : String := "내용을 불러올 수 없습니다."

/-- The click handler of a tab button (lines 227-232); target is the button's
data-target attribute, none when the attribute is absent (the key is then the
string "undefined"). -/
def onTabClick (button : Nat) (target : Option String) (s : State) : Step :=
  let s1 := { s with activeTabs := [button] }
  match s.resultCache.get (target.getD "undefined") with
  | .missing => { state := { s1 with resultContent := .text unavailable }, actions := [], threw := false }
  | .builtin name => { state := { s1 with resultContent := .builtin name }, actions := [], threw := false }
  | .own v =>
    match (v.or (.str unavailable)).textContent with
    | none => { state := s1, actions := [], threw := true }
    | some shown => { state := { s1 with resultContent := .text shown }, actions := [], threw := false }

/-! ## Events -/

/-- The events the browser delivers to the controller. -/
inductive Event where
  | submit
  | xhrLoad (status : Nat) (statusText : String) (body : Body)
  | xhrError
  | timer (id : Nat)
  | fetchSettled (id : Nat) (out : FetchOutcome)
  | tabClick (button : Nat) (target : Option String)

/-- A handler that does not run. -/
def idle (s : State) : Step := { state := s, actions := [], threw := false }

/-- Delivery of one event.  A timer fires only while it is active, a fetch
settles only while it is outstanding, and an upload answers only while one is
outstanding. -/
def dispatch (e : Event) (s : State) : Step :=
  match e with
  | .submit => onSubmit s
  | .xhrLoad status statusText body =>
    if s.xhrPending = 0 then idle s
    else xhrOnload status statusText body { s with xhrPending := s.xhrPending - 1 }
  | .xhrError =>
    if s.xhrPending = 0 then idle s
    else xhrOnerror { s with xhrPending := s.xhrPending - 1 }
  | .timer id => if id ∈ s.intervals then intervalTick id s else idle s
  | .fetchSettled id out =>
    if id ∈ s.pending then afterFetch id out { s with pending := s.pending.erase id } else idle s
  | .tabClick button target => onTabClick button target s

/-- Delivery of a sequence of events, collecting the actions. -/
def run : List Event → State → State × List Action
  | [], s => (s, [])
  | e :: es, s =>
    let r := dispatch e s
    let rest := run es r.state
    (rest.1, r.actions ++ rest.2)

/-- The page at DOMContentLoaded (lines 24-25) with nothing selected or typed
and the given placeholder on every optional parameter. -/
def pageLoaded (placeholder : String) : State :=
  { jobKey := .null
    resultCache := { txt := .null, vtt := .null }
    file := none
    model := "base"
    threshold := { value := "", placeholder := placeholder }
    min_duration_off := { value := "", placeholder := placeholder }
    min_speakers := { value := "", placeholder := placeholder }
    max_speakers := { value := "", placeholder := placeholder }
    submitDisabled := false
    spinnerDisplay := "none"
    btnText := "회의록 생성 시작"
    progressContainerDisplay := "none"
    resultsContainerDisplay := "none"
    resultViewDisplay := "none"
    progressBarWidth := "0%"
    progressText := ""
    statusMessage := ""
    resultContent := .text ""
    activeTabs := [0]
    downloadTxt := { href := .page "#", download := "", display := "" }
    downloadVtt := { href := .page "#", download := "", display := "" }
    intervals := []
    nextInterval := 1
    pending := []
    xhrPending := 0 }

/-! ## Vocabulary of the properties -/

/-- Whether a text contains the separator ": ". -/
def hasSeparator : List Char → Bool
  | [] => false
  | [_] => false
  | c :: d :: rest => (c == ':' && d == ' ') || hasSeparator (d :: rest)

/-- Actions that open a connection or start the poll timer. -/
def Action.startsRequest : Action → Bool
  | .xhrOpen _ _ => true
  | .xhrSend _ => true
  | .setInterval _ _ => true
  | .fetch _ => true
  | _ => false

/-- Actions that cancel a timer. -/
def Action.isClear : Action → Bool
  | .clearInterval _ => true
  | _ => false

/-- Actions that show an alert. -/
def Action.isAlert : Action → Bool
  | .alert _ => true
  | _ => false

/-- An OK response whose parsed body has st as its status. -/
def HttpResponse.statusIs (r : HttpResponse) (st : JSVal) : Prop :=
  r.ok = true ∧ ∃ v, r.body = .json v ∧ v.getProp "status" = some st

/-- An OK response with status completed whose data carries the two texts. -/
def HttpResponse.completedWith (r : HttpResponse) (txt vtt : String) : Prop :=
  r.ok = true ∧ ∃ v d, r.body = .json v ∧ v.getProp "status" = some (.str "completed") ∧
    v.getProp "data" = some d ∧ d.getProp "txt" = some (.str txt) ∧ d.getProp "vtt" = some (.str vtt)

/-- An OK response with status failed whose data is the string d. -/
def HttpResponse.failedWith (r : HttpResponse) (d : String) : Prop :=
  r.ok = true ∧ ∃ v, r.body = .json v ∧ v.getProp "status" = some (.str "failed") ∧
    v.getProp "data" = some (.str d)

/-- One tick of the timer followed by the response to its request. -/
def pollRound (id : Nat) (r : HttpResponse) : List Event :=
  [.timer id, .fetchSettled id (.response r)]

/-- Ticks answered one after the other by the given responses. -/
def pollRounds (id : Nat) (rs : List HttpResponse) : List Event :=
  rs.flatMap (pollRound id)

/-- A cache entry as the data model has it: null or a string. -/
def JSVal.isText : JSVal → Bool
  | .null => true
  | .str _ => true
  | _ => false

/-- A status response on which the success or the failure branch throws after
it has cancelled the timer: completed with data that is undefined or null or
whose txt does not convert to text, or failed with data that does not convert
to a string. -/
def throwsAfterCancel (out : FetchOutcome) : Bool :=
  match out with
  | .rejected => false
  | .response r =>
    r.ok &&
      match r.body with
      | .invalid => false
      | .json result =>
        match result.getProp "status", result.getProp "data" with
        | some status, some data =>
          if status.strictEqStr "completed" then
            match data.getProp "txt" with
            | none => true
            | some txt => txt.textContent.isNone
          else if status.strictEqStr "failed" then data.toStr.isNone
          else false
        | _, _ => false

/-- A JSON object literal with one string field. -/
def jsonKey (name value : String) : JSVal := .obj [(name, .str value)]

/-- Response 200 of the status endpoint for a job in progress. -/
def processingResponse : HttpResponse :=
  { status := 200, statusText := "OK", body := .json (jsonKey "status" "processing") }

/-- Response 200 of the status endpoint for a finished job. -/
def completedResponse (txt vtt : String) : HttpResponse :=
  { status := 200, statusText := "OK"
    body := .json (.obj [("status", .str "completed"),
      ("data", .obj [("txt", .str txt), ("vtt", .str vtt)])]) }

/-- Response 200 of the status endpoint for a failed job. -/
def failedResponse (detail : String) : HttpResponse :=
  { status := 200, statusText := "OK"
    body := .json (.obj [("status", .str "failed"), ("data", .str detail)]) }

/-- The page with a file chosen and a default documented on every optional
parameter. -/
def readyPage : State :=
  { pageLoaded "기본값: 0.5" with file := some "meeting.wav" }

/-- The page while the timer 1 polls for the job "job1". -/
def pollingPage : State :=
  { readyPage with jobKey := .str "job1", intervals := [1], nextInterval := 2, submitDisabled := true }

/-- The answer of the upload endpoint that issues the job key "job1". -/
def jobAccepted : Event := .xhrLoad 200 "OK" (.json (jsonKey "key" "job1"))

/-- A first job whose first status request is still unanswered when the timer
ticks again: submission, job key, two ticks five seconds apart, then the
answer to one of the two requests, completed with a transcript. -/
def firstJob : List Event :=
  [.submit, jobAccepted, .timer 1, .timer 1,
   .fetchSettled 1 (.response (completedResponse "first transcript" "WEBVTT first"))]

/-- The answer to the other status request of the first job. -/
def lateResponse : Event :=
  .fetchSettled 1 (.response (completedResponse "first transcript" "WEBVTT first"))

/-- The answer of the upload endpoint to the second submission. -/
def secondAccepted : Event := .xhrLoad 200 "OK" (.json (jsonKey "key" "job2"))

/-- A job that completes with an empty transcript, after which the user
switches to the subtitle tab and back to the text tab. -/
def silentJob : List Event :=
  [.submit, jobAccepted, .timer 1,
   .fetchSettled 1 (.response (completedResponse "" "WEBVTT")),
   .tabClick 1 (some "vtt"), .tabClick 0 (some "txt")]

/-- Response 200 of the status endpoint that reports completion and carries no
data. -/
def completedWithoutData : HttpResponse :=
  { status := 200, statusText := "OK", body := .json (jsonKey "status" "completed") }

/-- The page after a job has completed with the texts "hello" and "WEBVTT". -/
def renderedPage : State :=
  (run [.submit, jobAccepted, .timer 1,
    .fetchSettled 1 (.response (completedResponse "hello" "WEBVTT"))] readyPage).1

/-- Response 200 of the status endpoint whose body is the JSON text null, so
that reading result.status throws. -/
def nullBodyResponse : HttpResponse :=
  { status := 200, statusText := "OK", body := .json .null }

/-- Response 204 without a body, on which response.json() rejects. -/
def emptyBodyResponse : HttpResponse :=
  { status := 204, statusText := "No Content", body := .invalid }

/-! ## Auxiliary facts -/

theorem splitGo_noSep (l : List Char) (cur : List Char) (h : hasSeparator l = false) :
    splitGo l cur = [cur.reverse ++ l] := by
  induction l generalizing cur with
  | nil => simp [splitGo]
  | cons c tl ih =>
    cases tl with
    | nil => simp [splitGo]
    | cons d rest =>
      simp only [hasSeparator, Bool.or_eq_false_iff] at h
      have hcd : ¬ (c = ':' ∧ d = ' ') := by
        intro hh; simp [hh.1, hh.2] at h
      rw [splitGo, if_neg hcd, ih _ h.2]
      simp

theorem splitGo_sep (l r : List Char) (cur : List Char) (h : hasSeparator l = false) :
    splitGo (l ++ ':' :: ' ' :: r) cur = (cur.reverse ++ l) :: splitGo r [] := by
  induction l generalizing cur with
  | nil => simp [splitGo]
  | cons c tl ih =>
    cases tl with
    | nil =>
      have hcd : ¬ (c = ':' ∧ ':' = ' ') := by simp
      simp only [List.cons_append, List.nil_append]
      rw [splitGo, if_neg hcd]
      have := ih (c :: cur) (by simp [hasSeparator])
      simpa using this
    | cons d rest =>
      simp only [hasSeparator, Bool.or_eq_false_iff] at h
      have hcd : ¬ (c = ':' ∧ d = ' ') := by
        intro hh; simp [hh.1, hh.2] at h
      simp only [List.cons_append]
      rw [splitGo, if_neg hcd]
      have := ih (c :: cur) h.2
      simpa using this

theorem jsSplit_label_default (label dflt : String)
    (hl : hasSeparator label.toList = false) (hd : hasSeparator dflt.toList = false) :
    jsSplit (label ++ ": " ++ dflt) = [label, dflt] := by
  have e : (label ++ ": " ++ dflt).toList = label.toList ++ ':' :: ' ' :: dflt.toList := by
    simp [String.toList]
  unfold jsSplit
  rw [e, splitGo_sep _ _ _ hl, splitGo_noSep _ _ hd]
  simp

theorem submittedValue_label_default (el : InputEl) (label dflt : String)
    (hph : el.placeholder = label ++ ": " ++ dflt)
    (hl : hasSeparator label.toList = false) (hd : hasSeparator dflt.toList = false) :
    submittedValue el = if el.value ≠ "" then el.value else dflt := by
  unfold submittedValue
  rw [hph, jsSplit_label_default label dflt hl hd]
  simp

theorem buildForm_entry (f : String) (s : State) (id : String) (hid : id ∈ optionalParams) :
    (buildForm f s).filter (fun p => p.1 == id) = [(id, .text (submittedValue (s.input id)))] := by
  simp only [optionalParams, List.mem_cons, List.mem_singleton, List.not_mem_nil, or_false] at hid
  rcases hid with h | h | h | h <;> subst h <;>
    simp [buildForm, optionalParams, List.filter]

theorem getProp_isSome (v a : JSVal) (k k2 : String) (h : v.getProp k = some a) :
    ∃ b, v.getProp k2 = some b := by
  cases v <;> simp [JSVal.getProp] at h ⊢

theorem strictEqStr_false (v : JSVal) (lit : String) (h : v ≠ .str lit) :
    v.strictEqStr lit = false := by
  cases v <;> simp [JSVal.strictEqStr]
  rename_i s
  intro hs; exact h (by rw [hs])

theorem afterFetch_waits (id : Nat) (r : HttpResponse) (st : JSVal) (s : State)
    (h : r.statusIs st) (hc : st ≠ .str "completed") (hf : st ≠ .str "failed") :
    afterFetch id (.response r) s = idle s := by
  obtain ⟨hok, v, hb, hst⟩ := h
  obtain ⟨d, hd⟩ := getProp_isSome v st "status" "data" hst
  simp [afterFetch, hok, hb, hst, hd, strictEqStr_false _ _ hc, strictEqStr_false _ _ hf, idle]

theorem run_append (es fs : List Event) (s : State) :
    run (es ++ fs) s = ((run fs (run es s).1).1, (run es s).2 ++ (run fs (run es s).1).2) := by
  induction es generalizing s with
  | nil => simp [run]
  | cons e es ih => simp [run, ih, List.append_assoc]

theorem run_round_waits (id : Nat) (r : HttpResponse) (st : JSVal) (k : String) (s : State)
    (hact : id ∈ s.intervals) (hkey : s.jobKey.toStr = some k)
    (h : r.statusIs st) (hc : st ≠ .str "completed") (hf : st ≠ .str "failed") :
    run (pollRound id r) s = (s, [.fetch ("/job-result/" ++ k)]) := by
  simp [pollRound, run, dispatch, hact, intervalTick, hkey, afterFetch_waits id r st _ h hc hf, idle]

theorem run_rounds_wait (id : Nat) (rs : List HttpResponse) (k : String) (s : State)
    (hact : id ∈ s.intervals) (hkey : s.jobKey.toStr = some k)
    (h : ∀ r ∈ rs, r.statusIs (.str "processing")) :
    run (pollRounds id rs) s = (s, List.replicate rs.length (.fetch ("/job-result/" ++ k))) := by
  induction rs with
  | nil => simp [pollRounds, run]
  | cons r rs ih =>
    have h1 := run_round_waits id r (.str "processing") k s hact hkey (h r (by simp))
      (by simp) (by simp)
    have h2 := ih (fun r hr => h r (by simp [hr]))
    simp only [pollRounds, List.flatMap_cons] at h2 ⊢
    rw [run_append, h1]
    simp [h2, List.replicate_succ]

theorem pollRounds_append (id : Nat) (rs : List HttpResponse) (r : HttpResponse) :
    pollRounds id (rs ++ [r]) = pollRounds id rs ++ pollRound id r := by
  simp [pollRounds]

theorem processingResponse_statusIs : processingResponse.statusIs (.str "processing") :=
  ⟨by decide, _, rfl, rfl⟩

theorem mem_replicate_processing (n : Nat) :
    ∀ r ∈ List.replicate n processingResponse, r.statusIs (.str "processing") := by
  intro r hr
  rw [List.eq_of_mem_replicate hr]
  exact processingResponse_statusIs

/-! ## Submission -/

/-- C1, as stated, fails: with the placeholder "기본값: " (nothing behind the
separator) and nothing typed, element 1 of the split placeholder is the empty
string, and the empty string is what every optional parameter is submitted
with. -/
theorem empty_default_is_submitted :
    submittedValue { value := "", placeholder := "기본값: " } = "" ∧
    (onSubmit { pageLoaded "기본값: " with file := some "meeting.wav" }).actions =
      [.preventDefault, .xhrOpen "POST" "/upload-and-process",
       .xhrSend [("file", .file "meeting.wav"), ("model", .text "base"),
         ("threshold", .text ""), ("min_duration_off", .text ""),
         ("min_speakers", .text ""), ("max_speakers", .text "")]] :=
  ⟨by decide, rfl⟩

/-- C1, amended: when a file is selected, the submit handler sends exactly
one form entry for each optional parameter.  Its value is what the user typed
when that is not empty; otherwise it is element 1 of the placeholder split at
": " (the string "undefined" when the placeholder has no separator), which for
a placeholder that reads label ++ ": " ++ dflt, with no further separator in
label or dflt, is dflt.  The value is the empty string only when nothing was
typed and that element is itself empty. -/
theorem submit_sends_value_or_default (s : State) (f id : String)
    (hfile : s.file = some f) (hid : id ∈ optionalParams) :
    (onSubmit s).actions =
      [.preventDefault, .xhrOpen "POST" "/upload-and-process", .xhrSend (buildForm f (resetUI s))] ∧
    (buildForm f (resetUI s)).filter (fun p => p.1 == id) =
      [(id, .text (submittedValue (s.input id)))] ∧
    ((s.input id).value ≠ "" → submittedValue (s.input id) = (s.input id).value) ∧
    (∀ label dflt, (s.input id).value = "" → (s.input id).placeholder = label ++ ": " ++ dflt →
      hasSeparator label.toList = false → hasSeparator dflt.toList = false →
      submittedValue (s.input id) = dflt) ∧
    ((s.input id).value = "" → (jsSplit (s.input id).placeholder)[1]? = none →
      submittedValue (s.input id) = "undefined") ∧
    (submittedValue (s.input id) = "" ↔
      (s.input id).value = "" ∧ (jsSplit (s.input id).placeholder)[1]? = some "") := by
  refine ⟨?_, ?_, ?_, ?_, ?_, ?_⟩
  · simp [onSubmit, hfile, startUpload]
  · rw [buildForm_entry f (resetUI s) id hid]
    rfl
  · intro hv
    simp [submittedValue, hv]
  · intro label dflt hv hph hl hd
    rw [submittedValue_label_default (s.input id) label dflt hph hl hd]
    simp [hv]
  · intro hv hnone
    simp [submittedValue, hv, hnone]
  · unfold submittedValue
    by_cases hv : (s.input id).value = ""
    · cases hsp : (jsSplit (s.input id).placeholder)[1]? with
      | none => simp [hv]
      | some p => simp [hv]
    · simp [hv]

/-- C1, amended, at the page whose placeholders read "기본값: 0.5": with
nothing typed the threshold is submitted as "0.5", and it is not empty. -/
theorem submit_sends_value_or_default_witness :
    (onSubmit readyPage).actions =
      [.preventDefault, .xhrOpen "POST" "/upload-and-process",
       .xhrSend (buildForm "meeting.wav" (resetUI readyPage))] ∧
    (buildForm "meeting.wav" (resetUI readyPage)).filter (fun p => p.1 == "threshold") =
      [("threshold", .text (submittedValue (readyPage.input "threshold")))] ∧
    submittedValue (readyPage.input "threshold") = "0.5" ∧
    ¬ submittedValue (readyPage.input "threshold") = "" :=
  ⟨(submit_sends_value_or_default readyPage "meeting.wav" "threshold" rfl (by decide)).1,
   (submit_sends_value_or_default readyPage "meeting.wav" "threshold" rfl (by decide)).2.1,
   (submit_sends_value_or_default readyPage "meeting.wav" "threshold" rfl (by decide)).2.2.2.1
     "기본값" "0.5" rfl rfl (by decide) (by decide),
   fun h => absurd
     ((submit_sends_value_or_default readyPage "meeting.wav" "threshold" rfl
       (by decide)).2.2.2.2.2.1 h).2 (by decide)⟩

/-- C2: a submit event with no file selected leaves the whole state (job key,
result cache, rendered results, timers, outstanding requests) as it was; the
handler only cancels the browser's own form submission and shows the
validation alert, so it opens and sends no XHR, starts no timer and fetches
nothing. -/
theorem submit_without_file (s : State) (h : s.file = none) :
    (dispatch .submit s).state = s ∧
    (dispatch .submit s).actions = [.preventDefault, .alert "파일을 선택해주세요."] ∧
    (∀ a ∈ (dispatch .submit s).actions, a.startsRequest = false) ∧
    (dispatch .submit s).threw = false := by
  simp [dispatch, onSubmit, h, Action.startsRequest]

/-- C2 at the freshly loaded page. -/
theorem submit_without_file_witness :
    (dispatch .submit (pageLoaded "기본값: 0.5")).state = pageLoaded "기본값: 0.5" ∧
    (dispatch .submit (pageLoaded "기본값: 0.5")).actions =
      [.preventDefault, .alert "파일을 선택해주세요."] ∧
    (∀ a ∈ (dispatch .submit (pageLoaded "기본값: 0.5")).actions, a.startsRequest = false) ∧
    (dispatch .submit (pageLoaded "기본값: 0.5")).threw = false :=
  submit_without_file (pageLoaded "기본값: 0.5") rfl

/-! ## Polling -/

theorem not_mem_cleared (id : Nat) (s : State) : id ∉ (clearIntervalState id s).intervals := by
  simp [clearIntervalState, List.mem_filter]

theorem timer_idle_of_not_mem (id : Nat) (s : State) (h : id ∉ s.intervals) :
    dispatch (.timer id) s = idle s := by
  simp [dispatch, h]

theorem run_round_completed (id : Nat) (rc : HttpResponse) (txt vtt k : String) (s : State)
    (hact : id ∈ s.intervals) (hkey : s.jobKey.toStr = some k)
    (hdone : rc.completedWith txt vtt) :
    (run (pollRound id rc) s).2 = [.fetch ("/job-result/" ++ k), .clearInterval id] ∧
    id ∉ (run (pollRound id rc) s).1.intervals ∧
    (run (pollRound id rc) s).1.resultCache = { txt := .str txt, vtt := .str vtt } ∧
    (run (pollRound id rc) s).1.resultContent = .text txt ∧
    (run (pollRound id rc) s).1.resultViewDisplay = "block" := by
  obtain ⟨hok, v, d, hb, hst, hd, htxt, hvtt⟩ := hdone
  have e1 : ∀ x : String, (JSVal.str x).toStr = some x := fun _ => rfl
  have e2 : ∀ x : String, (JSVal.str x).textContent = some x := fun _ => rfl
  simp [pollRound, run, dispatch, hact, intervalTick, hkey, afterFetch, hok, hb, hst, hd,
    JSVal.strictEqStr, displayResults, htxt, hvtt, makeDownload, e1, e2,
    clearIntervalState, List.mem_filter]

/-- C3: with the timer id active and a job key that converts to text, let the
timer tick n + 1 times, each request answered before the next tick, the first
n answers (rs) being OK with status processing and the last (rc) OK with
status completed and data carrying txt and vtt.  Then the timer is still
active when request n + 1 goes out; the whole run issues n + 1 status requests
and a single clearInterval, placed behind the last of them; afterwards the id
is no longer active, a further tick of it does nothing, the result cache holds
the pair of that last response, and the viewer, made visible, shows txt. -/
theorem poll_stops_at_completed (s : State) (id : Nat) (k : String) (rs : List HttpResponse)
    (rc : HttpResponse) (txt vtt : String)
    (hact : id ∈ s.intervals) (hkey : s.jobKey.toStr = some k)
    (hproc : ∀ r ∈ rs, r.statusIs (.str "processing")) (hdone : rc.completedWith txt vtt) :
    id ∈ (run (pollRounds id rs ++ [.timer id]) s).1.intervals ∧
    (run (pollRounds id (rs ++ [rc])) s).2 =
      List.replicate (rs.length + 1) (.fetch ("/job-result/" ++ k)) ++ [.clearInterval id] ∧
    id ∉ (run (pollRounds id (rs ++ [rc])) s).1.intervals ∧
    dispatch (.timer id) (run (pollRounds id (rs ++ [rc])) s).1 =
      idle (run (pollRounds id (rs ++ [rc])) s).1 ∧
    (run (pollRounds id (rs ++ [rc])) s).1.resultCache = { txt := .str txt, vtt := .str vtt } ∧
    (run (pollRounds id (rs ++ [rc])) s).1.resultContent = .text txt ∧
    (run (pollRounds id (rs ++ [rc])) s).1.resultViewDisplay = "block" := by
  have hw := run_rounds_wait id rs k s hact hkey hproc
  obtain ⟨c1, c2, c3, c4, c5⟩ := run_round_completed id rc txt vtt k s hact hkey hdone
  have hfin : run (pollRounds id (rs ++ [rc])) s =
      ((run (pollRound id rc) s).1,
        List.replicate rs.length (.fetch ("/job-result/" ++ k)) ++ (run (pollRound id rc) s).2) := by
    rw [pollRounds_append, run_append, hw]
  refine ⟨?_, ?_, ?_, ?_, ?_, ?_, ?_⟩
  · rw [run_append, hw]
    simp [run, dispatch, hact, intervalTick, hkey]
  · rw [hfin, c1]
    simp [List.replicate_succ']
  · rw [hfin]; exact c2
  · rw [hfin]; exact timer_idle_of_not_mem id _ c2
  · rw [hfin]; exact c3
  · rw [hfin]; exact c4
  · rw [hfin]; exact c5

/-- C3 in the case of the specification: processing, processing, completed. -/
theorem poll_stops_at_completed_witness :
    1 ∈ (run (pollRounds 1 (List.replicate 2 processingResponse) ++ [.timer 1])
      pollingPage).1.intervals ∧
    (run (pollRounds 1 (List.replicate 2 processingResponse ++ [completedResponse "hello" "WEBVTT"]))
      pollingPage).2 =
      List.replicate ((List.replicate 2 processingResponse).length + 1)
        (.fetch ("/job-result/" ++ "job1")) ++ [.clearInterval 1] ∧
    1 ∉ (run (pollRounds 1 (List.replicate 2 processingResponse ++ [completedResponse "hello" "WEBVTT"]))
      pollingPage).1.intervals ∧
    dispatch (.timer 1)
      (run (pollRounds 1 (List.replicate 2 processingResponse ++ [completedResponse "hello" "WEBVTT"]))
        pollingPage).1 =
      idle (run (pollRounds 1
        (List.replicate 2 processingResponse ++ [completedResponse "hello" "WEBVTT"])) pollingPage).1 ∧
    (run (pollRounds 1 (List.replicate 2 processingResponse ++ [completedResponse "hello" "WEBVTT"]))
      pollingPage).1.resultCache = { txt := .str "hello", vtt := .str "WEBVTT" } ∧
    (run (pollRounds 1 (List.replicate 2 processingResponse ++ [completedResponse "hello" "WEBVTT"]))
      pollingPage).1.resultContent = .text "hello" ∧
    (run (pollRounds 1 (List.replicate 2 processingResponse ++ [completedResponse "hello" "WEBVTT"]))
      pollingPage).1.resultViewDisplay = "block" :=
  poll_stops_at_completed pollingPage 1 "job1" (List.replicate 2 processingResponse)
    (completedResponse "hello" "WEBVTT") "hello" "WEBVTT" (by decide) rfl
    (mem_replicate_processing 2) ⟨by decide, _, _, rfl, rfl, rfl, rfl, rfl⟩

/-- C4: when the response to a status request is OK with status failed and
data the string d, the handler cancels the timer and calls handleError once;
the message it passes contains d; afterwards the timer id is not active, a
further tick of it issues no request, and the result cache is as before. -/
theorem poll_failed_surfaces_detail (s : State) (id : Nat) (r : HttpResponse) (d : String)
    (h : r.failedWith d) :
    (afterFetch id (.response r) s).actions =
      [.clearInterval id, .alert ("서버 처리 실패: " ++ d)] ∧
    (∀ msg, Action.alert msg ∈ (afterFetch id (.response r) s).actions →
      ∃ pre post, msg = pre ++ d ++ post) ∧
    id ∉ (afterFetch id (.response r) s).state.intervals ∧
    dispatch (.timer id) (afterFetch id (.response r) s).state =
      idle (afterFetch id (.response r) s).state ∧
    (afterFetch id (.response r) s).state.resultCache = s.resultCache := by
  obtain ⟨hok, v, hb, hst, hd⟩ := h
  have e1 : ∀ x : String, (JSVal.str x).toStr = some x := fun _ => rfl
  have hres : afterFetch id (.response r) s =
      { state := { clearIntervalState id s with
          submitDisabled := false, spinnerDisplay := "none", btnText := "회의록 생성 시작" }
        actions := [.clearInterval id, .alert ("서버 처리 실패: " ++ d)]
        threw := false } := by
    simp [afterFetch, hok, hb, hst, hd, JSVal.strictEqStr, e1, handleError]
  rw [hres]
  refine ⟨rfl, ?_, ?_, ?_, rfl⟩
  · intro msg hmsg
    simp only [List.mem_cons, List.mem_singleton, List.not_mem_nil, or_false] at hmsg
    rcases hmsg with hm | hm
    · cases hm
    · injection hm with hm
      exact ⟨"서버 처리 실패: ", "", by rw [hm]; simp⟩
  · exact not_mem_cleared id s
  · exact timer_idle_of_not_mem id _ (not_mem_cleared id s)

/-- C4 in the case of the specification: failed with data "boom". -/
theorem poll_failed_surfaces_detail_witness :
    (afterFetch 1 (.response (failedResponse "boom")) pollingPage).actions =
      [.clearInterval 1, .alert ("서버 처리 실패: " ++ "boom")] ∧
    (∀ msg, Action.alert msg ∈ (afterFetch 1 (.response (failedResponse "boom")) pollingPage).actions →
      ∃ pre post, msg = pre ++ "boom" ++ post) ∧
    1 ∉ (afterFetch 1 (.response (failedResponse "boom")) pollingPage).state.intervals ∧
    dispatch (.timer 1) (afterFetch 1 (.response (failedResponse "boom")) pollingPage).state =
      idle (afterFetch 1 (.response (failedResponse "boom")) pollingPage).state ∧
    (afterFetch 1 (.response (failedResponse "boom")) pollingPage).state.resultCache =
      pollingPage.resultCache :=
  poll_failed_surfaces_detail pollingPage 1 (failedResponse "boom") "boom"
    ⟨by decide, _, rfl, rfl, rfl⟩

theorem notFound_ne_serverError (statusText : String) :
    "작업 ID를 찾을 수 없습니다. 페이지를 새로고침하세요." ≠ "결과 확인 중 서버 오류 발생: " ++ statusText := by
  intro h
  have h2 := congrArg String.toList h
  simp [String.toList] at h2

/-- C5: with the timer id active and a job key that converts to text, let n
status requests be answered OK with status processing (rs) and the next one
with HTTP 404 (r).  Then the run issues n + 1 requests, cancels the timer once
on the 404 and shows exactly one alert, the job-not-found message asking to
reload and not the server-error message; afterwards the id is not active, a
further tick of it issues no request, and cache, viewer and result view are as
they were. -/
theorem poll_404_stops (s : State) (id : Nat) (k : String) (rs : List HttpResponse)
    (r : HttpResponse)
    (hact : id ∈ s.intervals) (hkey : s.jobKey.toStr = some k)
    (hproc : ∀ p ∈ rs, p.statusIs (.str "processing")) (h404 : r.status = 404) :
    (run (pollRounds id (rs ++ [r])) s).2 =
      List.replicate (rs.length + 1) (.fetch ("/job-result/" ++ k)) ++
        [.clearInterval id, .alert "작업 ID를 찾을 수 없습니다. 페이지를 새로고침하세요."] ∧
    Action.alert ("결과 확인 중 서버 오류 발생: " ++ r.statusText) ∉ (run (pollRounds id (rs ++ [r])) s).2 ∧
    id ∉ (run (pollRounds id (rs ++ [r])) s).1.intervals ∧
    dispatch (.timer id) (run (pollRounds id (rs ++ [r])) s).1 =
      idle (run (pollRounds id (rs ++ [r])) s).1 ∧
    (run (pollRounds id (rs ++ [r])) s).1.resultCache = s.resultCache ∧
    (run (pollRounds id (rs ++ [r])) s).1.resultContent = s.resultContent ∧
    (run (pollRounds id (rs ++ [r])) s).1.resultViewDisplay = s.resultViewDisplay := by
  have hw := run_rounds_wait id rs k s hact hkey hproc
  have hok : r.ok = false := by simp [HttpResponse.ok, h404]
  have hlast : run (pollRound id r) s =
      ({ clearIntervalState id s with
          submitDisabled := false, spinnerDisplay := "none", btnText := "회의록 생성 시작" },
        [.fetch ("/job-result/" ++ k), .clearInterval id,
          .alert "작업 ID를 찾을 수 없습니다. 페이지를 새로고침하세요."]) := by
    simp [pollRound, run, dispatch, hact, intervalTick, hkey, afterFetch, hok, h404, handleError,
      clearIntervalState]
  have hfin : run (pollRounds id (rs ++ [r])) s =
      ({ clearIntervalState id s with
          submitDisabled := false, spinnerDisplay := "none", btnText := "회의록 생성 시작" },
        List.replicate (rs.length + 1) (.fetch ("/job-result/" ++ k)) ++
          [.clearInterval id, .alert "작업 ID를 찾을 수 없습니다. 페이지를 새로고침하세요."]) := by
    rw [pollRounds_append, run_append, hw, hlast]
    simp [List.replicate_succ']
  rw [hfin]
  refine ⟨rfl, ?_, ?_, ?_, rfl, rfl, rfl⟩
  · intro hmem
    simp only [List.mem_append, List.mem_cons, List.mem_singleton, List.not_mem_nil, or_false]
      at hmem
    rcases hmem with hm | hm | hm
    · have := List.eq_of_mem_replicate hm
      cases this
    · cases hm
    · injection hm with hm
      exact notFound_ne_serverError r.statusText hm.symm
  · exact not_mem_cleared id s
  · exact timer_idle_of_not_mem id _ (not_mem_cleared id s)

/-- C5 after two processing responses. -/
theorem poll_404_stops_witness :
    (run (pollRounds 1 (List.replicate 2 processingResponse ++
      [{ status := 404, statusText := "Not Found", body := .invalid }])) pollingPage).2 =
      List.replicate ((List.replicate 2 processingResponse).length + 1)
        (.fetch ("/job-result/" ++ "job1")) ++
        [.clearInterval 1, .alert "작업 ID를 찾을 수 없습니다. 페이지를 새로고침하세요."] ∧
    Action.alert ("결과 확인 중 서버 오류 발생: " ++
      ({ status := 404, statusText := "Not Found", body := .invalid } : HttpResponse).statusText) ∉
      (run (pollRounds 1 (List.replicate 2 processingResponse ++
        [{ status := 404, statusText := "Not Found", body := .invalid }])) pollingPage).2 ∧
    1 ∉ (run (pollRounds 1 (List.replicate 2 processingResponse ++
      [{ status := 404, statusText := "Not Found", body := .invalid }])) pollingPage).1.intervals ∧
    dispatch (.timer 1) (run (pollRounds 1 (List.replicate 2 processingResponse ++
      [{ status := 404, statusText := "Not Found", body := .invalid }])) pollingPage).1 =
      idle (run (pollRounds 1 (List.replicate 2 processingResponse ++
        [{ status := 404, statusText := "Not Found", body := .invalid }])) pollingPage).1 ∧
    (run (pollRounds 1 (List.replicate 2 processingResponse ++
      [{ status := 404, statusText := "Not Found", body := .invalid }])) pollingPage).1.resultCache =
      pollingPage.resultCache ∧
    (run (pollRounds 1 (List.replicate 2 processingResponse ++
      [{ status := 404, statusText := "Not Found", body := .invalid }])) pollingPage).1.resultContent =
      pollingPage.resultContent ∧
    (run (pollRounds 1 (List.replicate 2 processingResponse ++
      [{ status := 404, statusText := "Not Found", body := .invalid }])) pollingPage).1.resultViewDisplay =
      pollingPage.resultViewDisplay :=
  poll_404_stops pollingPage 1 "job1" (List.replicate 2 processingResponse)
    { status := 404, statusText := "Not Found", body := .invalid } (by decide) rfl
    (mem_replicate_processing 2) rfl

/-- C6, as stated, fails: an OK response whose status is missing because the
body is the JSON text null, or because a 204 carries no body to parse, makes
the try block throw; the catch block cancels the timer that was active, shows
the network-error alert and enables the submit control that was disabled. -/
theorem unreadable_status_reports_error :
    nullBodyResponse.ok = true ∧
    1 ∈ pollingPage.intervals ∧
    pollingPage.submitDisabled = true ∧
    (afterFetch 1 (.response nullBodyResponse) pollingPage).actions =
      [.clearInterval 1, .alert "결과 확인 중 네트워크 오류가 발생했습니다."] ∧
    1 ∉ (afterFetch 1 (.response nullBodyResponse) pollingPage).state.intervals ∧
    (afterFetch 1 (.response nullBodyResponse) pollingPage).state.submitDisabled = false ∧
    emptyBodyResponse.ok = true ∧
    (afterFetch 1 (.response emptyBodyResponse) pollingPage).actions =
      [.clearInterval 1, .alert "결과 확인 중 네트워크 오류가 발생했습니다."] ∧
    1 ∉ (afterFetch 1 (.response emptyBodyResponse) pollingPage).state.intervals ∧
    (afterFetch 1 (.response emptyBodyResponse) pollingPage).state.submitDisabled = false :=
  ⟨by decide, by decide, rfl, rfl, by decide, rfl, by decide, rfl, by decide, rfl⟩

/-- C6, amended: when the response to a status request is OK, its body parses
as JSON to a value other than null, and the status read off that value is
neither the string completed nor the string failed (the string processing,
any other value, or undefined for a body without a status field), the handler
changes nothing and asks nothing of the browser: job key, result cache,
displayed status and result and the submit control are as before, no alert is
shown, and a timer that was active stays active. -/
theorem poll_other_status_waits (s : State) (id : Nat) (r : HttpResponse) (st : JSVal)
    (h : r.statusIs st) (hc : st ≠ .str "completed") (hf : st ≠ .str "failed") :
    (afterFetch id (.response r) s).state = s ∧
    (afterFetch id (.response r) s).actions = [] ∧
    (afterFetch id (.response r) s).threw = false ∧
    (id ∈ s.intervals → id ∈ (afterFetch id (.response r) s).state.intervals) := by
  rw [afterFetch_waits id r st s h hc hf]
  exact ⟨rfl, rfl, rfl, fun hm => hm⟩

/-- C6, amended, for a processing response while timer 1 polls. -/
theorem poll_other_status_waits_witness :
    (afterFetch 1 (.response processingResponse) pollingPage).state = pollingPage ∧
    (afterFetch 1 (.response processingResponse) pollingPage).actions = [] ∧
    (afterFetch 1 (.response processingResponse) pollingPage).threw = false ∧
    (1 ∈ pollingPage.intervals →
      1 ∈ (afterFetch 1 (.response processingResponse) pollingPage).state.intervals) :=
  poll_other_status_waits pollingPage 1 processingResponse (.str "processing")
    processingResponse_statusIs (by simp) (by simp)

/-! ## Result tabs -/

/-- C7, as stated, fails: a job completes with an empty transcript, so the
key txt is present in the cache with a value that is not null; switching to
the subtitle tab and back to the text tab shows the fallback message instead
of that payload. -/
theorem empty_payload_shows_fallback :
    (run silentJob readyPage).1.resultCache = { txt := .str "", vtt := .str "WEBVTT" } ∧
    (run silentJob readyPage).1.resultContent = .text unavailable ∧
    (onTabClick 0 (some "txt") { readyPage with
      resultCache := { txt := .str "", vtt := .str "WEBVTT" } }).state.resultContent =
      .text unavailable :=
  ⟨rfl, rfl, rfl⟩

/-- C7, amended: for every cache whose two entries are null or strings and
every tab target, the click handler does not throw; it shows exactly the
cached payload when that is a string other than the empty one, the fallback
message when the key names nothing on the cache object or the cached value is
null or the empty string, and the inherited member when the key names a
member of Object.prototype; one of these cases always applies. -/
theorem tab_click_shows_payload_or_fallback (s : State) (button : Nat) (target : Option String)
    (htxt : s.resultCache.txt.isText = true) (hvtt : s.resultCache.vtt.isText = true) :
    (onTabClick button target s).threw = false ∧
    (∀ p, p ≠ "" → s.resultCache.get (target.getD "undefined") = .own (.str p) →
      (onTabClick button target s).state.resultContent = .text p) ∧
    ((s.resultCache.get (target.getD "undefined") = .missing ∨
      s.resultCache.get (target.getD "undefined") = .own .null ∨
      s.resultCache.get (target.getD "undefined") = .own (.str "")) →
      (onTabClick button target s).state.resultContent = .text unavailable) ∧
    (∀ name, s.resultCache.get (target.getD "undefined") = .builtin name →
      (onTabClick button target s).state.resultContent = .builtin name) ∧
    (s.resultCache.get (target.getD "undefined") = .missing ∨
      s.resultCache.get (target.getD "undefined") = .own .null ∨
      (∃ p, s.resultCache.get (target.getD "undefined") = .own (.str p)) ∨
      (∃ name, s.resultCache.get (target.getD "undefined") = .builtin name)) := by
  have hown : ∀ v, s.resultCache.get (target.getD "undefined") = .own v → v.isText = true := by
    intro v hv
    unfold ResultCache.get at hv
    split at hv
    · injection hv with hv; rw [← hv]; exact htxt
    · split at hv
      · injection hv with hv; rw [← hv]; exact hvtt
      · split at hv <;> cases hv
  cases hg : s.resultCache.get (target.getD "undefined") with
  | missing => simp [onTabClick, hg]
  | builtin name => simp [onTabClick, hg]
  | own v =>
    have hv := hown v hg
    cases v with
    | null => simp [onTabClick, hg, JSVal.or, JSVal.truthy, JSVal.textContent, JSVal.toStr]
    | str p =>
      by_cases hp : p = ""
      · subst hp
        simp [onTabClick, hg, JSVal.or, JSVal.truthy, JSVal.textContent, JSVal.toStr]
        intro p hp hq
        exact absurd hq.symm hp
      · simp [onTabClick, hg, JSVal.or, JSVal.truthy, JSVal.textContent, JSVal.toStr, hp]
    | undefined => simp [JSVal.isText] at hv
    | obj fields => simp [JSVal.isText] at hv
    | other t x => simp [JSVal.isText] at hv

/-- C7, amended, after a job has completed with the texts "hello" and
"WEBVTT": the subtitle tab shows "WEBVTT", and a tab whose target names
nothing on the cache shows the fallback message. -/
theorem tab_click_shows_payload_or_fallback_witness :
    (onTabClick 1 (some "vtt") renderedPage).threw = false ∧
    (onTabClick 1 (some "vtt") renderedPage).state.resultContent = .text "WEBVTT" ∧
    (onTabClick 2 (some "srt") renderedPage).state.resultContent = .text unavailable :=
  ⟨(tab_click_shows_payload_or_fallback renderedPage 1 (some "vtt") rfl rfl).1,
   (tab_click_shows_payload_or_fallback renderedPage 1 (some "vtt") rfl rfl).2.1
     "WEBVTT" (by decide) rfl,
   (tab_click_shows_payload_or_fallback renderedPage 2 (some "srt") rfl rfl).2.2.1
     (Or.inl rfl)⟩

/-! ## Resubmission -/

/-- C8, as stated, fails: the first job has two status requests outstanding
when one of them is answered completed; the results are rendered, the timer
is cancelled and the submit control is enabled again.  The second submission
resets job key, cache and viewer, and then the answer to the other request
arrives: the viewer holds the first job's transcript again, a switch to the
subtitle tab shows the first job's subtitles, and once the second upload is
accepted the results container is visible with that transcript in it. -/
theorem late_response_renders_first_job :
    (run firstJob readyPage).1.resultContent = .text "first transcript" ∧
    (run firstJob readyPage).1.submitDisabled = false ∧
    (run firstJob readyPage).1.intervals = [] ∧
    (run firstJob readyPage).1.pending = [1] ∧
    (run (firstJob ++ [.submit]) readyPage).1.jobKey = .null ∧
    (run (firstJob ++ [.submit]) readyPage).1.resultCache = { txt := .null, vtt := .null } ∧
    (run (firstJob ++ [.submit]) readyPage).1.resultContent = .text "" ∧
    (run (firstJob ++ [.submit, lateResponse]) readyPage).1.resultContent =
      .text "first transcript" ∧
    (run (firstJob ++ [.submit, lateResponse, .tabClick 1 (some "vtt")]) readyPage).1.resultContent =
      .text "WEBVTT first" ∧
    (run (firstJob ++ [.submit, lateResponse, secondAccepted]) readyPage).1.jobKey = .str "job2" ∧
    (run (firstJob ++ [.submit, lateResponse, secondAccepted]) readyPage).1.resultsContainerDisplay =
      "block" ∧
    (run (firstJob ++ [.submit, lateResponse, secondAccepted]) readyPage).1.resultViewDisplay =
      "block" ∧
    (run (firstJob ++ [.submit, lateResponse, secondAccepted]) readyPage).1.resultContent =
      .text "first transcript" :=
  ⟨rfl, rfl, rfl, rfl, rfl, rfl, rfl, rfl, rfl, rfl, rfl, rfl, rfl⟩

/-- C8, amended: in every state, a submission with a file selected ends with
the job key null, the cache holding null twice and the viewer empty; the
request is built and sent by the rest of the handler running on the state
resetUI produced; a tab switch right afterwards shows the fallback message;
and whatever events follow, the states and actions they lead to do not depend
on the job key, the cache or the viewer content the earlier job had left
behind. -/
theorem resubmission_resets (s : State) (f : String) (hfile : s.file = some f) :
    (dispatch .submit s).state.jobKey = .null ∧
    (dispatch .submit s).state.resultCache = { txt := .null, vtt := .null } ∧
    (dispatch .submit s).state.resultContent = .text "" ∧
    (dispatch .submit s).state = (startUpload f (resetUI s)).state ∧
    (dispatch .submit s).actions =
      [.preventDefault, .xhrOpen "POST" "/upload-and-process", .xhrSend (buildForm f (resetUI s))] ∧
    (∀ button, (onTabClick button (some "txt") (dispatch .submit s).state).state.resultContent =
      .text unavailable) ∧
    (∀ button, (onTabClick button (some "vtt") (dispatch .submit s).state).state.resultContent =
      .text unavailable) ∧
    (∀ (k : JSVal) (c : ResultCache) (v : Content) (evs : List Event),
      run (.submit :: evs) { s with jobKey := k, resultCache := c, resultContent := v } =
        run (.submit :: evs) s) := by
  refine ⟨?_, ?_, ?_, ?_, ?_, ?_, ?_, ?_⟩
  · simp [dispatch, onSubmit, hfile, startUpload, resetUI]
  · simp [dispatch, onSubmit, hfile, startUpload, resetUI]
  · simp [dispatch, onSubmit, hfile, startUpload, resetUI]
  · simp [dispatch, onSubmit, hfile]
  · simp [dispatch, onSubmit, hfile, startUpload]
  · intro button
    simp [dispatch, onSubmit, hfile, startUpload, resetUI, onTabClick, ResultCache.get,
      JSVal.or, JSVal.truthy, JSVal.textContent, JSVal.toStr]
  · intro button
    simp [dispatch, onSubmit, hfile, startUpload, resetUI, onTabClick, ResultCache.get,
      JSVal.or, JSVal.truthy, JSVal.textContent, JSVal.toStr]
  · intro k c v evs
    have h : dispatch .submit { s with jobKey := k, resultCache := c, resultContent := v } =
        dispatch .submit s := by
      simp [dispatch, onSubmit, hfile, startUpload, resetUI, buildForm, State.input]
    simp only [run, h]

/-- C8, amended, for the second submission that follows the first job. -/
theorem resubmission_resets_witness :
    (dispatch .submit (run firstJob readyPage).1).state.jobKey = .null ∧
    (dispatch .submit (run firstJob readyPage).1).state.resultCache = { txt := .null, vtt := .null } ∧
    (dispatch .submit (run firstJob readyPage).1).state.resultContent = .text "" ∧
    (dispatch .submit (run firstJob readyPage).1).state =
      (startUpload "meeting.wav" (resetUI (run firstJob readyPage).1)).state ∧
    (dispatch .submit (run firstJob readyPage).1).actions =
      [.preventDefault, .xhrOpen "POST" "/upload-and-process",
       .xhrSend (buildForm "meeting.wav" (resetUI (run firstJob readyPage).1))] ∧
    (∀ button, (onTabClick button (some "txt")
      (dispatch .submit (run firstJob readyPage).1).state).state.resultContent = .text unavailable) ∧
    (∀ button, (onTabClick button (some "vtt")
      (dispatch .submit (run firstJob readyPage).1).state).state.resultContent = .text unavailable) ∧
    (∀ (k : JSVal) (c : ResultCache) (v : Content) (evs : List Event),
      run (.submit :: evs)
        { (run firstJob readyPage).1 with jobKey := k, resultCache := c, resultContent := v } =
        run (.submit :: evs) (run firstJob readyPage).1) :=
  resubmission_resets (run firstJob readyPage).1 "meeting.wav" rfl

/-! ## Upload response -/

/-- C9: a load event of the upload with a status other than 200 calls
handleError with the upload-failed message, and an error event calls it with
the network-error message; either way one alert is shown, the submit control
is enabled again, the job key is left as it was (null when the event follows a
submission), and no timer is started.  A load event with status 200 whose body
is JSON that can be read for a key stores that key as the job key and starts
one timer with a fresh id. -/
theorem upload_failure_reenables (s : State) (status : Nat) (statusText : String) (body : Body)
    (hs : status ≠ 200) :
    (xhrOnload status statusText body s).actions = [.alert ("업로드 실패: " ++ statusText)] ∧
    (xhrOnload status statusText body s).state.submitDisabled = false ∧
    (xhrOnload status statusText body s).state.jobKey = s.jobKey ∧
    (xhrOnload status statusText body s).state.intervals = s.intervals ∧
    (xhrOnload status statusText body s).state.pending = s.pending ∧
    (xhrOnerror s).actions = [.alert "네트워크 오류가 발생했습니다."] ∧
    (xhrOnerror s).state.submitDisabled = false ∧
    (xhrOnerror s).state.jobKey = s.jobKey ∧
    (xhrOnerror s).state.intervals = s.intervals ∧
    (xhrOnerror s).state.pending = s.pending ∧
    (∀ f, s.file = some f →
      (run [.submit, .xhrLoad status statusText body] s).1.jobKey = .null ∧
      (run [.submit, .xhrLoad status statusText body] s).1.submitDisabled = false ∧
      (run [.submit, .xhrLoad status statusText body] s).1.intervals = s.intervals ∧
      (run [.submit, .xhrError] s).1.jobKey = .null ∧
      (run [.submit, .xhrError] s).1.submitDisabled = false ∧
      (run [.submit, .xhrError] s).1.intervals = s.intervals) ∧
    (∀ v k, v.getProp "key" = some k →
      (xhrOnload 200 statusText (.json v) s).state.jobKey = k ∧
      (xhrOnload 200 statusText (.json v) s).actions = [.setInterval s.nextInterval 5000] ∧
      (xhrOnload 200 statusText (.json v) s).state.intervals = s.nextInterval :: s.intervals) := by
  refine ⟨?_, ?_, ?_, ?_, ?_, rfl, rfl, rfl, rfl, rfl, ?_, ?_⟩
  · simp [xhrOnload, hs, handleError]
  · simp [xhrOnload, hs, handleError]
  · simp [xhrOnload, hs, handleError]
  · simp [xhrOnload, hs, handleError]
  · simp [xhrOnload, hs, handleError]
  · intro f hf
    simp [run, dispatch, onSubmit, hf, startUpload, resetUI, xhrOnload, hs, handleError,
      xhrOnerror]
  · intro v k hk
    simp [xhrOnload, hk, pollForResult]

/-- C9 for the answer 201 Created, a 2xx status other than 200. -/
theorem upload_failure_reenables_witness :
    (xhrOnload 201 "Created" (.json (jsonKey "key" "job1")) readyPage).actions =
      [.alert ("업로드 실패: " ++ "Created")] ∧
    (xhrOnload 201 "Created" (.json (jsonKey "key" "job1")) readyPage).state.submitDisabled = false ∧
    (xhrOnload 201 "Created" (.json (jsonKey "key" "job1")) readyPage).state.jobKey =
      readyPage.jobKey ∧
    (xhrOnload 201 "Created" (.json (jsonKey "key" "job1")) readyPage).state.intervals =
      readyPage.intervals ∧
    (xhrOnload 201 "Created" (.json (jsonKey "key" "job1")) readyPage).state.pending =
      readyPage.pending ∧
    (xhrOnerror readyPage).actions = [.alert "네트워크 오류가 발생했습니다."] ∧
    (xhrOnerror readyPage).state.submitDisabled = false ∧
    (xhrOnerror readyPage).state.jobKey = readyPage.jobKey ∧
    (xhrOnerror readyPage).state.intervals = readyPage.intervals ∧
    (xhrOnerror readyPage).state.pending = readyPage.pending ∧
    (∀ f, readyPage.file = some f →
      (run [.submit, .xhrLoad 201 "Created" (.json (jsonKey "key" "job1"))] readyPage).1.jobKey =
        .null ∧
      (run [.submit, .xhrLoad 201 "Created" (.json (jsonKey "key" "job1"))]
        readyPage).1.submitDisabled = false ∧
      (run [.submit, .xhrLoad 201 "Created" (.json (jsonKey "key" "job1"))] readyPage).1.intervals =
        readyPage.intervals ∧
      (run [.submit, .xhrError] readyPage).1.jobKey = .null ∧
      (run [.submit, .xhrError] readyPage).1.submitDisabled = false ∧
      (run [.submit, .xhrError] readyPage).1.intervals = readyPage.intervals) ∧
    (∀ v k, v.getProp "key" = some k →
      (xhrOnload 200 "Created" (.json v) readyPage).state.jobKey = k ∧
      (xhrOnload 200 "Created" (.json v) readyPage).actions =
        [.setInterval readyPage.nextInterval 5000] ∧
      (xhrOnload 200 "Created" (.json v) readyPage).state.intervals =
        readyPage.nextInterval :: readyPage.intervals) :=
  upload_failure_reenables readyPage 201 "Created" (.json (jsonKey "key" "job1")) (by decide)

/-! ## One outcome per response -/

theorem makeDownload_no_alert (content jobKey : JSVal) (mime suffix label : String) (link : Download) :
    (makeDownload content jobKey mime suffix label link).2.filter Action.isAlert = [] ∧
    (makeDownload content jobKey mime suffix label link).2.filter Action.isClear = [] := by
  unfold makeDownload
  split
  · simp [Action.isAlert, Action.isClear]
  · split <;> simp [Action.isAlert, Action.isClear]

theorem displayResults_ok (data txt : JSVal) (shown : String) (s : State)
    (htxt : data.getProp "txt" = some txt) (hshown : txt.textContent = some shown) :
    (displayResults data s).threw = false ∧
    (displayResults data s).actions.filter Action.isAlert = [] ∧
    (displayResults data s).actions.filter Action.isClear = [] ∧
    (displayResults data s).state.resultViewDisplay = "block" ∧
    (displayResults data s).state.statusMessage = s.statusMessage ∧
    (displayResults data s).state.intervals = s.intervals := by
  obtain ⟨vtt, hvtt⟩ := getProp_isSome data txt "txt" "vtt" htxt
  simp [displayResults, htxt, hvtt, hshown, makeDownload_no_alert]

/-- C10, as stated, fails: on an OK response that reports completed and
carries no data, the handler cancels the timer and writes the completion
message, displayResults throws on reading txt, and the catch block cancels the
timer a second time and reports a network error for that same response. -/
theorem completed_without_data_reports_error :
    completedWithoutData.statusIs (.str "completed") ∧
    (afterFetch 1 (.response completedWithoutData) pollingPage).actions =
      [.clearInterval 1, .clearInterval 1, .alert "결과 확인 중 네트워크 오류가 발생했습니다."] ∧
    ((afterFetch 1 (.response completedWithoutData) pollingPage).actions.filter
      Action.isClear).length = 2 ∧
    (afterFetch 1 (.response completedWithoutData) pollingPage).state.statusMessage =
      "🎉 처리가 완료되었습니다!" :=
  ⟨⟨by decide, _, rfl, rfl⟩, rfl, rfl, rfl⟩

/-- C10, amended: for every way a status request can settle, other than an OK
response with status completed whose data is undefined or null or has a txt
that does not convert to text, and other than an OK response with status
failed whose data does not convert to a string, the handler cancels the timer
at most once, shows at most one alert and lets no exception escape; when it
shows an alert it leaves cache, viewer, result view and status message as they
were; and on status completed it shows no alert, cancels once, makes the
result view visible and writes the completion message. -/
theorem poll_step_single_outcome (s : State) (id : Nat) (out : FetchOutcome)
    (h : throwsAfterCancel out = false) :
    ((afterFetch id out s).actions.filter Action.isClear).length ≤ 1 ∧
    ((afterFetch id out s).actions.filter Action.isAlert).length ≤ 1 ∧
    (afterFetch id out s).threw = false ∧
    ((afterFetch id out s).actions.filter Action.isAlert ≠ [] →
      (afterFetch id out s).state.resultCache = s.resultCache ∧
      (afterFetch id out s).state.resultContent = s.resultContent ∧
      (afterFetch id out s).state.resultViewDisplay = s.resultViewDisplay ∧
      (afterFetch id out s).state.statusMessage = s.statusMessage) ∧
    (∀ r, out = .response r → r.statusIs (.str "completed") →
      (afterFetch id out s).actions.filter Action.isAlert = [] ∧
      ((afterFetch id out s).actions.filter Action.isClear).length = 1 ∧
      (afterFetch id out s).state.resultViewDisplay = "block" ∧
      (afterFetch id out s).state.statusMessage = "🎉 처리가 완료되었습니다!") := by
  cases out with
  | rejected =>
    simp [afterFetch, pollCatch, handleError, clearIntervalState, Action.isClear, Action.isAlert]
  | response r =>
    cases hok : r.ok with
    | false =>
      have hst : ∀ st, ¬ r.statusIs st := fun st hh => by simp [HttpResponse.statusIs, hok] at hh
      by_cases h404 : r.status = 404
      · simp [afterFetch, hok, h404, handleError, clearIntervalState, Action.isClear, Action.isAlert, hst]
      · simp [afterFetch, hok, h404, handleError, clearIntervalState, Action.isClear, Action.isAlert, hst]
    | true =>
      cases hb : r.body with
      | invalid =>
        have hst : ∀ st, ¬ r.statusIs st := fun st hh => by simp [HttpResponse.statusIs, hb] at hh
        simp [afterFetch, hok, hb, pollCatch, handleError, clearIntervalState, Action.isClear, Action.isAlert, hst]
      | json v =>
        cases hs : v.getProp "status" with
        | none =>
          have hd : v.getProp "data" = none := by cases v <;> simp [JSVal.getProp] at hs ⊢
          have hst : ∀ st, ¬ r.statusIs st := fun st hh => by
            obtain ⟨_, v2, hb2, hs2⟩ := hh
            rw [hb] at hb2; injection hb2 with hb2; subst hb2; rw [hs] at hs2; cases hs2
          simp [afterFetch, hok, hb, hs, hd, pollCatch, handleError, clearIntervalState,
            Action.isClear, Action.isAlert, hst]
        | some status =>
          obtain ⟨data, hd⟩ := getProp_isSome v status "status" "data" hs
          cases hc : status.strictEqStr "completed" with
          | true =>
            simp only [throwsAfterCancel, hok, hb, hs, hd, hc, Bool.true_and, if_true] at h
            cases htxt : data.getProp "txt" with
            | none => simp [htxt] at h
            | some txt =>
              simp only [htxt] at h
              cases hshown : txt.textContent with
              | none => simp [hshown] at h
              | some shown =>
                obtain ⟨d1, d2, d3, d4, d5, d6⟩ := displayResults_ok data txt shown
                  { clearIntervalState id s with statusMessage := "🎉 처리가 완료되었습니다!" } htxt hshown
                have hres : afterFetch id (.response r) s =
                    { displayResults data
                        { clearIntervalState id s with statusMessage := "🎉 처리가 완료되었습니다!" } with
                      actions := .clearInterval id :: (displayResults data
                        { clearIntervalState id s with statusMessage := "🎉 처리가 완료되었습니다!" }).actions } := by
                  simp [afterFetch, hok, hb, hs, hd, hc, d1]
                rw [hres]
                simp [d1, d2, d3, d4, d5, Action.isClear, Action.isAlert]
          | false =>
            have hst : ¬ r.statusIs (.str "completed") := fun hh => by
              obtain ⟨_, v2, hb2, hs2⟩ := hh
              rw [hb] at hb2; injection hb2 with hb2; subst hb2
              rw [hs] at hs2; injection hs2 with hs2; subst hs2
              simp [JSVal.strictEqStr] at hc
            cases hf : status.strictEqStr "failed" with
            | true =>
              simp only [throwsAfterCancel, hok, hb, hs, hd, hc, hf, Bool.true_and, if_true] at h
              cases hd2 : data.toStr with
              | none => simp [hd2] at h
              | some d =>
                simp [afterFetch, hok, hb, hs, hd, hc, hf, hd2, handleError, clearIntervalState,
                  Action.isClear, Action.isAlert, hst]
            | false =>
              simp [afterFetch, hok, hb, hs, hd, hc, hf, Action.isClear, Action.isAlert, hst]

/-- C10, amended, for a completed response with both texts. -/
theorem poll_step_single_outcome_witness :
    ((afterFetch 1 (.response (completedResponse "hello" "WEBVTT")) pollingPage).actions.filter
      Action.isClear).length ≤ 1 ∧
    ((afterFetch 1 (.response (completedResponse "hello" "WEBVTT")) pollingPage).actions.filter
      Action.isAlert).length ≤ 1 ∧
    (afterFetch 1 (.response (completedResponse "hello" "WEBVTT")) pollingPage).threw = false ∧
    ((afterFetch 1 (.response (completedResponse "hello" "WEBVTT")) pollingPage).actions.filter
        Action.isAlert ≠ [] →
      (afterFetch 1 (.response (completedResponse "hello" "WEBVTT")) pollingPage).state.resultCache =
        pollingPage.resultCache ∧
      (afterFetch 1 (.response (completedResponse "hello" "WEBVTT")) pollingPage).state.resultContent =
        pollingPage.resultContent ∧
      (afterFetch 1 (.response (completedResponse "hello" "WEBVTT"))
        pollingPage).state.resultViewDisplay = pollingPage.resultViewDisplay ∧
      (afterFetch 1 (.response (completedResponse "hello" "WEBVTT")) pollingPage).state.statusMessage =
        pollingPage.statusMessage) ∧
    (∀ r, FetchOutcome.response (completedResponse "hello" "WEBVTT") = .response r →
      r.statusIs (.str "completed") →
      (afterFetch 1 (.response (completedResponse "hello" "WEBVTT")) pollingPage).actions.filter
        Action.isAlert = [] ∧
      ((afterFetch 1 (.response (completedResponse "hello" "WEBVTT")) pollingPage).actions.filter
        Action.isClear).length = 1 ∧
      (afterFetch 1 (.response (completedResponse "hello" "WEBVTT"))
        pollingPage).state.resultViewDisplay = "block" ∧
      (afterFetch 1 (.response (completedResponse "hello" "WEBVTT")) pollingPage).state.statusMessage =
        "🎉 처리가 완료되었습니다!") :=
  poll_step_single_outcome pollingPage 1 (.response (completedResponse "hello" "WEBVTT")) rfl

end AILiveGate
